import Mathlib

/-!
Verification of the Tetris learning environment Python session layer
(src/python-api/environment.py) against its natural-language specification.

The Python file is a thin wrapper over a native emulation backend declared
through an ffi.cdef block.  The backend implementation itself is not part of
the repository sources here, so its contract is modelled from the spec
(sections 2, 4 and 6), while the Environment class methods are translated
directly from the Python code.
-/

namespace TLE

/-- Key enumeration, translated from the ffi.cdef block (environment.py:27-29):
Up = 0, Down = 1, Left = 2, Right = 3, B = 4, A = 5, Select = 6, Start = 7. -/
inductive Key where
  | Up
  | Down
  | Left
  | Right
  | B
  | A
  | Select
  | Start
deriving DecidableEq, Fintype, Repr

/-- Numeric value of each enum variant, as assigned in the ffi.cdef block. -/
def Key.val : Key → Nat
  | .Up => 0
  | .Down => 1
  | .Left => 2
  | .Right => 3
  | .B => 4
  | .A => 5
  | .Select => 6
  | .Start => 7

/-- Modelled from the spec: the emulated hardware state owned by one backend
instance — a score-bearing 32-bit cell of game memory, the running flag, and
the rendered pixel buffer of packed 32-bit values indexed by offset.  The
backend implementation (the Rust emulation core) is not under src/, so this
is the abstract state the spec's backend contract (section 6) operates on. -/
structure Machine where
  scoreCell : Nat
  running : Bool
  pixelBuf : Nat → Nat

/-- Modelled from the spec: one backend instance as seen across the boundary
surface (spec section 6) — the emulated machine, the per-instance input latch
(all-released at creation, spec section 3), and instrumentation counters for
frame advances and episode starts (the spec's stub backend counts one per
advance, section 8). -/
structure Backend where
  mach : Machine
  latch : Key → Bool
  frames : Nat
  starts : Nat

/-- Modelled from the spec: the backend library contract (spec section 6).
The Rust implementation is missing from src/; these fields abstract, for an
arbitrary conforming backend: whether create-instance can parse a given ROM
path, the boot pixel buffer and boot score cell for a parsed ROM, the effect
of one frame advance on the machine given the latch, the episode-start
hardware reset, and the int32 status code start-episode reports. -/
structure BackendLib where
  parses : String → Bool
  bootPix : String → Nat → Nat
  bootScore : String → Nat
  advance : Machine → (Key → Bool) → Machine
  reset : Machine → Machine
  startStatus : Machine → Int

/-- Resource accounting for the backend library: the number of live backend
instances currently allocated, and how many times destroy_environment has
been invoked.  Used to state the no-leak and no-destroy-on-null properties. -/
structure World where
  instances : Nat
  destroyCalls : Nat
deriving DecidableEq, Repr

/-- Modelled from the spec: initialize_environment (create instance,
spec section 6) — returns a fresh instance handle for a parsable ROM path
(allocating exactly one backend instance, booted not-running with an
all-released latch and no episode started), or null with no resources
retained otherwise. -/
def createInstance (bk : BackendLib) (rom : String) (w : World) :
    Option Backend × World :=
  if bk.parses rom then
    (some { mach := { scoreCell := bk.bootScore rom
                    , running := false
                    , pixelBuf := bk.bootPix rom }
          , latch := fun _ => false
          , frames := 0
          , starts := 0 }
    , { w with instances := w.instances + 1 })
  else
    (none, w)

/-- Modelled from the spec: destroy_environment releases the backend instance
and all resources it holds (spec sections 4.8 and 6). -/
def destroyInstance (w : World) : World :=
  { instances := w.instances - 1, destroyCalls := w.destroyCalls + 1 }

/-- Modelled from the spec: the backend start_episode call — resets the
emulated hardware for a fresh run and returns an int32 status code
(spec sections 4.2 and 6). -/
def Backend.startEp (bk : BackendLib) (b : Backend) : Int × Backend :=
  (bk.startStatus b.mach, { b with mach := bk.reset b.mach, starts := b.starts + 1 })

/-- Modelled from the spec: the backend run_frame call — consumes the current
latch, advances simulated hardware by exactly one rendered frame, updating
pixel and score state (spec sections 4.3 and 6); the frame counter increments
by one per call, as in the spec's counting stub (section 8). -/
def Backend.runFrame (bk : BackendLib) (b : Backend) : Backend :=
  { b with mach := bk.advance b.mach b.latch, frames := b.frames + 1 }

/-- The Python Environment object: its single field is the private __obj
handle; none models ffi.NULL (environment.py:49). -/
structure Environment where
  obj : Option Backend

/-- Environment.WIDTH (environment.py:44). -/
def Environment.WIDTH : Nat := 160

/-- Environment.HEIGHT (environment.py:45). -/
def Environment.HEIGHT : Nat := 144

/-- The exception raised by Environment.__init__ when the backend returns a
null handle; the spec's error taxonomy names it InitializationError. -/
inductive InitializationError where
  | initFailed (msg : String)
deriving DecidableEq, Repr

/-- Result of running Environment.__init__: the object as constructed (its
__obj field assigned), the exception propagated out of the constructor if
any, and the backend resource state afterwards. -/
structure InitResult where
  env : Environment
  raised : Option InitializationError
  world : World

/-- Environment.__init__ (environment.py:47-51): encodes the path, calls
initialize_environment, stores the handle in self.__obj, and raises when the
handle is NULL. -/
def Environment.init (bk : BackendLib) (rom_path : String) (w : World) :
    InitResult :=
  let res := createInstance bk rom_path w
  match res.1 with
  | none =>
      { env := { obj := none }
      , raised := some (.initFailed
          "failed to initialize environment (maybe the rom path was incorrect?)")
      , world := res.2 }
  | some b =>
      { env := { obj := some b }, raised := none, world := res.2 }

/-- Environment.__del__ (environment.py:53-57): calls destroy_environment only
when self.__obj is not ffi.NULL, then sets self.__obj to None. -/
def Environment.del (e : Environment) (w : World) : Environment × World :=
  match e.obj with
  | some _ => ({ obj := none }, destroyInstance w)
  | none => ({ obj := none }, w)

/-- Environment.start_episode (environment.py:59-60): calls the backend
start_episode on the live handle and discards its int32 return value; the
Python method returns None. -/
def Environment.start_episode (bk : BackendLib) (b : Backend) : Unit × Backend :=
  ((), (Backend.startEp bk b).2)

/-- Environment.run_frame (environment.py:62-63): one backend run_frame call
on the live handle. -/
def Environment.run_frame (bk : BackendLib) (b : Backend) : Backend :=
  Backend.runFrame bk b

/-- Environment.is_running (environment.py:65-66): reads the backend running
flag of the live handle. -/
def Environment.is_running (b : Backend) : Bool :=
  b.mach.running

/-- Environment.set_key_state (environment.py:71-72): one backend
set_key_state call, overwriting the latched state of the given key. -/
def Environment.set_key_state (b : Backend) (key : Key) (pressed : Bool) :
    Backend :=
  { b with latch := fun k => if k = key then pressed else b.latch k }

/-- Reinterpretation of a 32-bit cell as a numpy int32: values below 2^31 are
kept, values from 2^31 up to 2^32 wrap to negatives. -/
def asInt32 (u : Nat) : Int :=
  if u % 2 ^ 32 < 2 ^ 31 then ((u % 2 ^ 32 : Nat) : Int)
  else ((u % 2 ^ 32 : Nat) : Int) - 2 ^ 32

/-- Environment.get_score (environment.py:74-75): the backend get_score call,
declared int32_t in the ffi.cdef block, reading the score cell of the live
handle's emulated state. -/
def Environment.get_score (b : Backend) : Int :=
  asInt32 b.mach.scoreCell

/-- Environment.get_pixels (environment.py:77-80): wraps the backend pixel
pointer in a buffer of WIDTH * HEIGHT * 4 bytes and reads it through
numpy.frombuffer with dtype int32 and count WIDTH * HEIGHT, so each of the
WIDTH * HEIGHT unsigned 32-bit backend values is reinterpreted as int32. -/
def Environment.get_pixels (b : Backend) : List Int :=
  (List.range (Environment.WIDTH * Environment.HEIGHT)).map
    (fun i => asInt32 (b.mach.pixelBuf i))

/-- Iterate Environment.run_frame the given number of times. -/
def stepN (bk : BackendLib) : Nat → Backend → Backend
  | 0, b => b
  | n + 1, b => stepN bk n (Environment.run_frame bk b)

/-- One caller-visible operation on a live session. -/
inductive Op where
  | step
  | press (k : Key) (p : Bool)
  | begin_ep
deriving DecidableEq

/-- Apply one operation to a live session. -/
def applyOp (bk : BackendLib) (b : Backend) : Op → Backend
  | .step => Environment.run_frame bk b
  | .press k p => Environment.set_key_state b k p
  | .begin_ep => (Environment.start_episode bk b).2

/-- Apply a sequence of operations to a live session. -/
def applyOps (bk : BackendLib) : List Op → Backend → Backend
  | [], b => b
  | op :: ops, b => applyOps bk ops (applyOp bk b op)

/-- Everything a caller can observe of a live session: score, running flag
and the pixel frame. -/
def observe (b : Backend) : Int × Bool × List Int :=
  (Environment.get_score b, Environment.is_running b, Environment.get_pixels b)

/-- One failed-construction round: run Environment.__init__ and then the
destructor of the object it produced. -/
def constructThenDel (bk : BackendLib) (rom : String) (w : World) : World :=
  let r := Environment.init bk rom w
  (Environment.del r.env r.world).2

/-- Repeated construct-then-destruct rounds on the same ROM path. -/
def initLoop (bk : BackendLib) (rom : String) : Nat → World → World
  | 0, w => w
  | n + 1, w => initLoop bk rom n (constructThenDel bk rom w)

/-- A concrete machine for witnesses: score zero, not running, blank frame. -/
def demoMachine : Machine :=
  { scoreCell := 0, running := false, pixelBuf := fun _ => 0 }

/-- A concrete live backend instance for witnesses. -/
def demoBackend : Backend :=
  { mach := demoMachine, latch := fun _ => false, frames := 0, starts := 0 }

/-- A concrete backend library that rejects every ROM path. -/
def demoLibFail : BackendLib :=
  { parses := fun _ => false
  , bootPix := fun _ _ => 0
  , bootScore := fun _ => 0
  , advance := fun m _ => m
  , reset := fun m => m
  , startStatus := fun _ => 0 }

/-- A concrete backend library that accepts every ROM path and reports
status code zero from start_episode. -/
def demoLibOk : BackendLib :=
  { parses := fun _ => true
  , bootPix := fun _ _ => 0
  , bootScore := fun _ => 0
  , advance := fun m _ => m
  , reset := fun m => m
  , startStatus := fun _ => 0 }

/-- A backend library identical to demoLibOk except that start_episode
reports status code seven. -/
def demoLibSeven : BackendLib :=
  { parses := fun _ => true
  , bootPix := fun _ _ => 0
  , bootScore := fun _ => 0
  , advance := fun m _ => m
  , reset := fun m => m
  , startStatus := fun _ => 7 }

/-- A concrete live backend whose whole pixel buffer holds 2^31, the least
value whose int32 reinterpretation is negative. -/
def negPixBackend : Backend :=
  { mach := { scoreCell := 0, running := false, pixelBuf := fun _ => 2 ^ 31 }
  , latch := fun _ => false
  , frames := 0
  , starts := 0 }

/-- The empty resource state. -/
def w0 : World := { instances := 0, destroyCalls := 0 }

theorem asInt32_range (u : Nat) : -(2 ^ 31) ≤ asInt32 u ∧ asInt32 u < 2 ^ 31 := by
  unfold asInt32
  have h := Nat.mod_lt u (show 0 < 2 ^ 32 by norm_num)
  split <;> omega

theorem stepN_frames (bk : BackendLib) (n : Nat) (b : Backend) :
    (stepN bk n b).frames = b.frames + n := by
  induction n generalizing b with
  | zero => rfl
  | succ m ih =>
      show (stepN bk m (Environment.run_frame bk b)).frames = b.frames + (m + 1)
      rw [ih]
      show b.frames + 1 + m = b.frames + (m + 1)
      omega

/-- C8: the button enumeration exposed to callers is closed, ordered, and
fixed with exactly the 8 variants Up, Down, Left, Right, B, A, Select, Start
in that order, with numeric values 0 through 7 respectively. -/
theorem Key.enum_spec :
    Key.val .Up = 0 ∧ Key.val .Down = 1 ∧ Key.val .Left = 2 ∧
    Key.val .Right = 3 ∧ Key.val .B = 4 ∧ Key.val .A = 5 ∧
    Key.val .Select = 6 ∧ Key.val .Start = 7 ∧
    Fintype.card Key = 8 ∧
    (∀ k : Key, Key.val k < 8) ∧
    ∀ k1 k2 : Key, Key.val k1 = Key.val k2 → k1 = k2 := by
  refine ⟨rfl, rfl, rfl, rfl, rfl, rfl, rfl, rfl, ?_, ?_, ?_⟩ <;> decide

/-- C5: for every live session, every button and every pressed flag,
set_key_state overwrites exactly that button's latched state, leaving every
other button, the emulated machine (hence pixels, score and running flag),
the frame counter and the episode-start counter unchanged; the operation is
total, with no error condition. -/
theorem Environment.set_key_state_spec (b : Backend) (key : Key) (pressed : Bool) :
    (Environment.set_key_state b key pressed).latch key = pressed ∧
    (∀ k, k ≠ key → (Environment.set_key_state b key pressed).latch k = b.latch k) ∧
    (Environment.set_key_state b key pressed).mach = b.mach ∧
    (Environment.set_key_state b key pressed).frames = b.frames ∧
    (Environment.set_key_state b key pressed).starts = b.starts := by
  refine ⟨?_, ?_, rfl, rfl, rfl⟩
  · simp [Environment.set_key_state]
  · intro k hk
    simp [Environment.set_key_state, hk]

/-- C3: each run_frame call advances the backend frame counter by exactly
one, and N step calls issued after episode start advance it by exactly N —
no batching, no skipping. -/
theorem Environment.run_frame_count (bk : BackendLib) (b : Backend) (n : Nat) :
    (Environment.run_frame bk b).frames = b.frames + 1 ∧
    (stepN bk n (Environment.start_episode bk b).2).frames = b.frames + n := by
  refine ⟨rfl, ?_⟩
  rw [stepN_frames]
  rfl

/-- C6: get_score returns the int32 reinterpretation of the score cell of
the backend's emulated state as of call time — a signed 32-bit value — and
re-reads live state on every call: after a frame advance it reflects the
advanced machine.  It is a pure query with no effect on session or backend
state. -/
theorem Environment.get_score_spec (bk : BackendLib) (b : Backend) :
    Environment.get_score b = asInt32 b.mach.scoreCell ∧
    -(2 ^ 31) ≤ Environment.get_score b ∧
    Environment.get_score b < 2 ^ 31 ∧
    Environment.get_score (Environment.run_frame bk b) =
      asInt32 (bk.advance b.mach b.latch).scoreCell := by
  exact ⟨rfl, (asInt32_range b.mach.scoreCell).1, (asInt32_range b.mach.scoreCell).2, rfl⟩

theorem get_pixels_getElem (b : Backend) (i : Nat) (hi : i < 23040) :
    (Environment.get_pixels b)[i]? = some (asInt32 (b.mach.pixelBuf i)) := by
  have hwh : Environment.WIDTH * Environment.HEIGHT = 23040 := rfl
  unfold Environment.get_pixels
  rw [List.getElem?_map, List.getElem?_range (by rw [hwh]; exact hi)]
  rfl

/-- C2: for every live session, get_pixels yields exactly
WIDTH * HEIGHT = 160 * 144 = 23040 packed 32-bit pixel values, read from the
backend's current (most recently rendered) pixel buffer; the WIDTH and
HEIGHT constants are fixed at 160 and 144.  The query is pure: it does not
modify session or backend state. -/
theorem Environment.get_pixels_spec (b : Backend) :
    Environment.WIDTH = 160 ∧ Environment.HEIGHT = 144 ∧
    Environment.WIDTH * Environment.HEIGHT = 23040 ∧
    (Environment.get_pixels b).length = 23040 ∧
    ∀ i < 23040, (Environment.get_pixels b)[i]? = some (asInt32 (b.mach.pixelBuf i)) := by
  refine ⟨rfl, rfl, rfl, ?_, fun i hi => get_pixels_getElem b i hi⟩
  unfold Environment.get_pixels
  rw [List.length_map, List.length_range]
  rfl

/-- C7: setting a button to the same pressed state twice in a row leaves the
session in exactly the state reached by setting it once, so every subsequent
sequence of operations produces identical observations (score, running flag
and pixel frame). -/
theorem Environment.set_key_state_idem (bk : BackendLib) (b : Backend) (k : Key) (p : Bool) :
    Environment.set_key_state (Environment.set_key_state b k p) k p =
      Environment.set_key_state b k p ∧
    ∀ ops : List Op,
      observe (applyOps bk ops
        (Environment.set_key_state (Environment.set_key_state b k p) k p)) =
      observe (applyOps bk ops (Environment.set_key_state b k p)) := by
  have h : Environment.set_key_state (Environment.set_key_state b k p) k p =
      Environment.set_key_state b k p := by
    unfold Environment.set_key_state
    congr 1
    funext k2
    by_cases hk : k2 = k <;> simp [hk]
  exact ⟨h, fun ops => by rw [h]⟩

/-- C9: Environment.start_episode invokes the backend start_episode, which
reports an int32 status code, but the session discards that code and always
returns the unit value, so sessions driven by two backends that differ only
in the status code they report are indistinguishable to the caller. -/
theorem Environment.start_episode_discards_status (bk1 bk2 : BackendLib)
    (b : Backend) (hres : bk1.reset = bk2.reset) :
    (Backend.startEp bk1 b).1 = bk1.startStatus b.mach ∧
    (Environment.start_episode bk1 b).1 = () ∧
    Environment.start_episode bk1 b = Environment.start_episode bk2 b := by
  refine ⟨rfl, rfl, ?_⟩
  unfold Environment.start_episode Backend.startEp
  rw [hres]

theorem Environment.start_episode_discards_status_witness :
    demoLibOk.reset = demoLibSeven.reset ∧
    demoLibOk.startStatus demoBackend.mach = 0 ∧
    demoLibSeven.startStatus demoBackend.mach = 7 ∧
    ((Backend.startEp demoLibOk demoBackend).1 =
        demoLibOk.startStatus demoBackend.mach ∧
     (Environment.start_episode demoLibOk demoBackend).1 = () ∧
     Environment.start_episode demoLibOk demoBackend =
        Environment.start_episode demoLibSeven demoBackend) :=
  ⟨rfl, rfl, rfl,
    Environment.start_episode_discards_status demoLibOk demoLibSeven demoBackend rfl⟩

/-- C10: get_pixels reads the backend's unsigned 32-bit pixel values with
numpy dtype int32, so every pixel value of at least 2^31 is returned to the
caller as the negative number equal to its value minus 2^32. -/
theorem Environment.get_pixels_signed_reinterpret (b : Backend) (i : Nat)
    (hi : i < 23040) (hv : 2 ^ 31 ≤ b.mach.pixelBuf i % 2 ^ 32) :
    (Environment.get_pixels b)[i]? =
      some (((b.mach.pixelBuf i % 2 ^ 32 : Nat) : Int) - 2 ^ 32) ∧
    ((b.mach.pixelBuf i % 2 ^ 32 : Nat) : Int) - 2 ^ 32 < 0 := by
  have hm := Nat.mod_lt (b.mach.pixelBuf i) (show 0 < 2 ^ 32 by norm_num)
  constructor
  · rw [get_pixels_getElem b i hi]
    unfold asInt32
    rw [if_neg (by omega)]
  · omega

theorem Environment.get_pixels_signed_reinterpret_witness :
    0 < 23040 ∧ 2 ^ 31 ≤ negPixBackend.mach.pixelBuf 0 % 2 ^ 32 ∧
    ((Environment.get_pixels negPixBackend)[0]? =
      some (((negPixBackend.mach.pixelBuf 0 % 2 ^ 32 : Nat) : Int) - 2 ^ 32) ∧
     ((negPixBackend.mach.pixelBuf 0 % 2 ^ 32 : Nat) : Int) - 2 ^ 32 < 0) :=
  ⟨by norm_num, by norm_num [negPixBackend],
    Environment.get_pixels_signed_reinterpret negPixBackend 0 (by norm_num)
      (by norm_num [negPixBackend])⟩

/-- C1: when the backend cannot parse the ROM path, construction raises an
InitializationError, the object's handle is null, no backend resources are
retained, the later destructor performs no destroy call and leaves the
resource state untouched, and any number of repeated failed
construct-then-destruct rounds leaves the resource state exactly as it
was — no leak. -/
theorem Environment.init_failure_spec (bk : BackendLib) (rom : String)
    (w : World) (h : bk.parses rom = false) :
    (Environment.init bk rom w).raised = some (.initFailed
      "failed to initialize environment (maybe the rom path was incorrect?)") ∧
    (Environment.init bk rom w).env.obj = none ∧
    (Environment.init bk rom w).world = w ∧
    (Environment.del (Environment.init bk rom w).env
      (Environment.init bk rom w).world).2 = w ∧
    ∀ n, initLoop bk rom n w = w := by
  have hinit : ∀ w2 : World, Environment.init bk rom w2 =
      { env := { obj := none }
      , raised := some (.initFailed
          "failed to initialize environment (maybe the rom path was incorrect?)")
      , world := w2 } := by
    intro w2
    unfold Environment.init createInstance
    simp [h]
  have hstep : ∀ w2 : World, constructThenDel bk rom w2 = w2 := by
    intro w2
    show (Environment.del (Environment.init bk rom w2).env
      (Environment.init bk rom w2).world).2 = w2
    rw [hinit w2]
    rfl
  refine ⟨?_, ?_, ?_, ?_, ?_⟩
  · rw [hinit w]
  · rw [hinit w]
  · rw [hinit w]
  · rw [hinit w]
    rfl
  · intro n
    induction n with
    | zero => rfl
    | succ m ih =>
        show initLoop bk rom m (constructThenDel bk rom w) = w
        rw [hstep w]
        exact ih

theorem Environment.init_failure_witness :
    demoLibFail.parses "tetris.gb" = false ∧
    ((Environment.init demoLibFail "tetris.gb" w0).raised = some (.initFailed
      "failed to initialize environment (maybe the rom path was incorrect?)") ∧
     (Environment.init demoLibFail "tetris.gb" w0).env.obj = none ∧
     (Environment.init demoLibFail "tetris.gb" w0).world = w0 ∧
     (Environment.del (Environment.init demoLibFail "tetris.gb" w0).env
       (Environment.init demoLibFail "tetris.gb" w0).world).2 = w0 ∧
     ∀ n, initLoop demoLibFail "tetris.gb" n w0 = w0) :=
  ⟨rfl, Environment.init_failure_spec demoLibFail "tetris.gb" w0 rfl⟩

/-- C4: when the backend parses the ROM path, construction yields a live
session holding exactly one freshly allocated backend instance (the resource
count rises by exactly one), no exception is raised, no episode-start has
been issued, no frame has been advanced, the latch is all-released, and the
running-state query reports false, remaining false under any latch
mutation. -/
theorem Environment.init_success_spec (bk : BackendLib) (rom : String)
    (w : World) (h : bk.parses rom = true) :
    ∃ b : Backend,
      (Environment.init bk rom w).env.obj = some b ∧
      (Environment.init bk rom w).raised = none ∧
      (Environment.init bk rom w).world.instances = w.instances + 1 ∧
      b.starts = 0 ∧
      b.frames = 0 ∧
      (∀ k, b.latch k = false) ∧
      Environment.is_running b = false ∧
      ∀ k p, Environment.is_running (Environment.set_key_state b k p) = false := by
  refine ⟨{ mach := { scoreCell := bk.bootScore rom
                    , running := false
                    , pixelBuf := bk.bootPix rom }
          , latch := fun _ => false
          , frames := 0
          , starts := 0 }, ?_, ?_, ?_, rfl, rfl, fun k => rfl, rfl, fun k p => rfl⟩
  · unfold Environment.init createInstance
    simp [h]
  · unfold Environment.init createInstance
    simp [h]
  · unfold Environment.init createInstance
    simp [h]

theorem Environment.init_success_witness :
    demoLibOk.parses "tetris.gb" = true ∧
    ∃ b : Backend,
      (Environment.init demoLibOk "tetris.gb" w0).env.obj = some b ∧
      (Environment.init demoLibOk "tetris.gb" w0).raised = none ∧
      (Environment.init demoLibOk "tetris.gb" w0).world.instances =
        w0.instances + 1 ∧
      b.starts = 0 ∧
      b.frames = 0 ∧
      (∀ k, b.latch k = false) ∧
      Environment.is_running b = false ∧
      ∀ k p, Environment.is_running (Environment.set_key_state b k p) = false :=
  ⟨rfl, Environment.init_success_spec demoLibOk "tetris.gb" w0 rfl⟩

end TLE
